import Mathlib

/-!
Shallow embedding of the biometric-device synchronization and
attendance-reconciliation engine of the Web-Based-Attendance-Management-System
repository, together with proofs settling the frozen claims about it.

Conventions of the embedding:
* Timestamps are naive-UTC instants modelled as `Nat` seconds since the epoch
  (the source works with whole-second punch timestamps from the device).
  A calendar day is `t / 86400`; `datetime.replace(hour=0, ...)` becomes
  `t / 86400 * 86400`.
* Database rows are Lean structures; the SQLModel session is a `DB` record of
  row lists.  `session.add` + `session.commit` of a mutated row becomes an
  explicit functional update.  SQLAlchemy autoflush makes pending rows visible
  to later queries inside the same run, which the immediate functional update
  models exactly.  Store writes are modelled as infallible: the source only
  reaches its generic exception handlers on database faults, which have no
  counterpart here.
* Generated UUID primary keys become `Nat` ids drawn from a counter in `DB`.
* The network behaviour of one physical terminal during one run is an oracle
  `DeviceNet`: the TCP probe outcome, the vendor-SDK connect outcome (`none`
  models a raised exception), and the attendance payload (`none` models a
  raised exception inside `zk_instance.get_attendance()`).
* Python truthiness of strings/lists maps to non-emptiness, of `Optional`
  values to `isSome`; `x or y` on an `Optional` maps to `Option.getD`.
-/

/-- Row of the `employee` table (the columns the sync subsystem reads):
a generated primary key and the company employee id string that device-local
user ids are matched against. -/
structure Employee where
  id : Nat
  employee_id : String
deriving DecidableEq

/-- Row of the `attendance` table, fields used by the sync subsystem
(`models.Attendance`): check-in time, optional check-out time, the ZKTeco
serial string `device_id`, the foreign key `zkteco_device_id`, punch method
and derived status. -/
structure Attendance where
  id : Nat
  employee_id : Nat
  check_in_time : Nat
  check_out_time : Option Nat
  device_id : Option String
  zkteco_device_id : Option Nat
  attendance_type : String
  status : String
deriving DecidableEq

/-- Row of the `zktecodevice` table (`models.ZKTecoDevice`): generated id,
immutable serial string `device_id`, network address, display name, mutable
health string `device_status`, last successful sync time, activation flag. -/
structure Device where
  id : Nat
  device_id : String
  device_name : String
  device_ip : String
  device_port : Nat
  device_status : String
  last_sync : Option Nat
  is_active : Bool
deriving DecidableEq

/-- Row of the `devicesynclog` table (`models.DeviceSyncLog`).  The wall-clock
`sync_duration` float column is not modelled (no claim mentions it). -/
structure DeviceSyncLog where
  device_id : Nat
  sync_type : String
  records_synced : Nat
  sync_status : String
  error_message : Option String
deriving DecidableEq

/-- The relational store as seen by the sync subsystem. -/
structure DB where
  employees : List Employee
  devices : List Device
  attendance : List Attendance
  sync_logs : List DeviceSyncLog
  next_attendance_id : Nat
deriving DecidableEq

/-- One raw punch event as returned by `get_device_attendance`: the dict
{user_id, timestamp, status}.  `status = 1` is a check-in hint, anything else
a check-out hint (`record.get('status', 1)` in the source).  The Python
falsiness tests `not user_id` / `not timestamp` become `user_id = ""` /
`timestamp = 0`. -/
structure RawRecord where
  user_id : String
  timestamp : Nat
  status : Nat
deriving DecidableEq

/-- Oracle for the network behaviour of one terminal during one run:
`probe_ok` is the `connect_ex` TCP probe succeeding, `zk_connect` the vendor
handshake (`none` = the SDK raised), `attendance` the payload of
`zk_instance.get_attendance()` (`none` = it raised). -/
structure DeviceNet where
  probe_ok : Bool
  zk_connect : Option Bool
  attendance : Option (List RawRecord)
deriving DecidableEq

/-- Replace the first element satisfying `p` by its image under `f` (the ORM
mutates the single row object returned by `.first()` and commits it). -/
def updateFirst (p : α → Bool) (f : α → α) : List α → List α
  | [] => []
  | x :: xs => if p x then f x :: xs else x :: updateFirst p f xs

/-- Committing a mutated device row: the row with the same primary key is
replaced (`self.db.add(device); self.db.commit()`). -/
def commitDevice (db : DB) (d : Device) : DB :=
  { db with devices := db.devices.map fun x => if x.id = d.id then d else x }

/-- Midnight of the day containing `t`
(`timestamp.replace(hour=0, minute=0, second=0, microsecond=0)`). -/
def startOfDay (t : Nat) : Nat := t / 86400 * 86400

/-- Insert a new attendance row (`session.add` of a freshly validated model
followed by commit), drawing the generated primary key from the counter. -/
def addAttendanceRow (db : DB) (row : Nat → Attendance) : DB :=
  { db with
      attendance := db.attendance ++ [row db.next_attendance_id]
      next_attendance_id := db.next_attendance_id + 1 }

namespace ZKTecoService

/-- Result of `ZKTecoService.connect_device`: the returned boolean, the
mutated device row, the store after the commit, and the in-memory session
cache (the keys of `self.devices`). -/
structure ConnectResult where
  ok : Bool
  device : Device
  db : DB
  connected : List String
deriving DecidableEq

/-- `ZKTecoService.connect_device` (zkteco_service.py lines 25-91).
The TCP probe failing commits `device_status = "offline"`; a false vendor
handshake or a raised exception commits `device_status = "error"`; success
caches the session, commits `device_status = "online"` and
`last_sync = utcnow`. -/
def connect_device (net : DeviceNet) (now : Nat) (device : Device) (db : DB)
    (connected : List String) : ConnectResult :=
  if net.probe_ok = false then
    let d := { device with device_status := "offline" }
    ⟨false, d, commitDevice db d, connected⟩
  else
    match net.zk_connect with
    | some true =>
      let d := { device with device_status := "online", last_sync := some now }
      ⟨true, d, commitDevice db d, device.device_id :: connected⟩
    | some false =>
      let d := { device with device_status := "error" }
      ⟨false, d, commitDevice db d, connected⟩
    | none =>
      let d := { device with device_status := "error" }
      ⟨false, d, commitDevice db d, connected⟩

/-- Result of `ZKTecoService.get_device_attendance`: the returned record list
plus the threaded device row, store and session cache. -/
structure PullResult where
  data : List RawRecord
  device : Device
  db : DB
  connected : List String
deriving DecidableEq

/-- The date-range filter of `get_device_attendance` (lines 123-136): keep
records with a truthy timestamp, not before `start_date` and not after
`end_date` when those bounds are given. -/
def filterRecords (data : List RawRecord) (start_date end_date : Option Nat) :
    List RawRecord :=
  data.filter fun r =>
    r.timestamp ≠ 0 &&
      (match start_date with
       | some s => decide (s ≤ r.timestamp)
       | none => true) &&
      (match end_date with
       | some e => decide (r.timestamp ≤ e)
       | none => true)

/-- Body of the `try` block of `get_device_attendance` once a session exists
(lines 113-146): a raised `get_attendance` commits `device_status = "error"`
and returns `[]`; an empty payload returns `[]`; otherwise the date filter is
applied. -/
def pullAttendance (net : DeviceNet) (device : Device) (db : DB)
    (connected : List String) (start_date end_date : Option Nat) : PullResult :=
  match net.attendance with
  | none =>
    let d := { device with device_status := "error" }
    ⟨[], d, commitDevice db d, connected⟩
  | some data =>
    if data.isEmpty then ⟨[], device, db, connected⟩
    else ⟨filterRecords data start_date end_date, device, db, connected⟩

/-- `ZKTecoService.get_device_attendance` (lines 107-146): connect first when
the device id is not in the session cache, returning `[]` if the connection
fails. -/
def get_device_attendance (net : DeviceNet) (now : Nat) (device : Device)
    (db : DB) (connected : List String) (start_date end_date : Option Nat) :
    PullResult :=
  if connected.contains device.device_id then
    pullAttendance net device db connected start_date end_date
  else
    let c := connect_device net now device db connected
    if c.ok then pullAttendance net c.device c.db c.connected start_date end_date
    else ⟨[], c.device, c.db, c.connected⟩

/-- The `since` cursor of a sync run (line 157):
`device.last_sync or (datetime.utcnow() - timedelta(hours=24))`. -/
def lastSyncCursor (device : Device) (now : Nat) : Nat :=
  device.last_sync.getD (now - 24 * 3600)

/-- The open-row query of the check-out branch of the record loop
(lines 208-218): the `today_start`/`today_end` day window around the punch,
null checkout, same employee and device. -/
def openCheckinPred (device : Device) (employee : Employee) (r : RawRecord)
    (a : Attendance) : Bool :=
  a.employee_id == employee.id &&
  decide (startOfDay r.timestamp ≤ a.check_in_time) &&
  decide (a.check_in_time < startOfDay r.timestamp + 86400) &&
  a.check_out_time.isNone &&
  a.zkteco_device_id == some device.id

/-- One iteration of the record loop of `sync_attendance_from_device`
(lines 166-242), returning the store and the increment of `records_synced`.
Skips records with a falsy user id or timestamp, records whose device user id
resolves to no employee, and records for which an attendance row with the
same employee, identical `check_in_time` and this device already exists.
For `status = 1` the source builds an `AttendanceCreate` that is never added
to the session, so only the counter moves.  Otherwise the first open row of
the punch day (query `openCheckinPred`) for this employee and device gets
its checkout set, and when none exists a closed row with
`check_in = check_out = timestamp` is added. -/
def processRecord (device : Device) (db : DB) (r : RawRecord) : DB × Nat :=
  if r.user_id = "" ∨ r.timestamp = 0 then (db, 0)
  else
    match db.employees.find? (fun e => e.employee_id == r.user_id) with
    | none => (db, 0)
    | some employee =>
      match db.attendance.find? (fun a =>
          a.employee_id == employee.id && a.check_in_time == r.timestamp &&
          a.zkteco_device_id == some device.id) with
      | some _ => (db, 0)
      | none =>
        if r.status = 1 then
          (db, 1)
        else
          match db.attendance.find? (openCheckinPred device employee r) with
          | some _ =>
            let closed := updateFirst (openCheckinPred device employee r)
              (fun a => { a with check_out_time := some r.timestamp })
              db.attendance
            ({ db with attendance := closed }, 1)
          | none =>
            (addAttendanceRow db fun i =>
              ⟨i, employee.id, r.timestamp, some r.timestamp,
                some device.device_id, some device.id,
                "fingerprint", "present"⟩, 1)

/-- The whole record loop of `sync_attendance_from_device` over a pulled
batch, accumulating `records_synced`. -/
def processAll (device : Device) : DB → List RawRecord → DB × Nat
  | db, [] => (db, 0)
  | db, r :: rest =>
    let s := processRecord device db r
    let t := processAll device s.1 rest
    (t.1, s.2 + t.2)

/-- Result of `ZKTecoService.sync_attendance_from_device`: the returned pair
`(records_synced, sync_status)` plus the threaded device row, store and
session cache. -/
structure SyncResult where
  records_synced : Nat
  sync_status : String
  device : Device
  db : DB
  connected : List String
deriving DecidableEq

/-- `ZKTecoService.sync_attendance_from_device` (lines 148-288).  The pull
uses `lastSyncCursor` as `start_date`; an empty pull returns
`(0, "success")` at line 163 without touching the store further; otherwise
the record loop runs, the device row is committed with
`last_sync = utcnow, device_status = "online"`, and one success
`DeviceSyncLog` row is appended.  The `except` branch of the source (which
appends one failed log row) is reachable only through store faults, which the
embedding models as infallible, so it has no counterpart here. -/
def sync_attendance_from_device (net : DeviceNet) (now : Nat) (device : Device)
    (db : DB) (connected : List String) : SyncResult :=
  let pull := get_device_attendance net now device db connected
    (some (lastSyncCursor device now)) none
  if pull.data.isEmpty then
    ⟨0, "success", pull.device, pull.db, pull.connected⟩
  else
    let s := processAll device pull.db pull.data
    let d2 := { pull.device with last_sync := some now, device_status := "online" }
    let db3 := commitDevice s.1 d2
    let log : DeviceSyncLog := ⟨device.id, "attendance", s.2, "success", none⟩
    ⟨s.2, "success", d2,
      { db3 with sync_logs := db3.sync_logs ++ [log] }, pull.connected⟩

end ZKTecoService

namespace ZKTecoManager

/-- The device loop of `ZKTecoManager.sync_all_devices` (lines 433-436):
each device gets its own service from `get_service` (fresh session cache)
and its sync result is recorded under its name. -/
def syncDevicesLoop (net : Device → DeviceNet) (now : Nat) :
    DB → List Device → List (String × (Nat × String)) × DB
  | db, [] => ([], db)
  | db, device :: rest =>
    let r := ZKTecoService.sync_attendance_from_device (net device) now device db []
    let t := syncDevicesLoop net now r.db rest
    ((device.device_name, (r.records_synced, r.sync_status)) :: t.1, t.2)

/-- `ZKTecoManager.sync_all_devices` (lines 424-438): snapshot the active
devices, run `sync_attendance_from_device` for each, and collect
`(device_name, (records_synced, status))`.  The Python result is a dict
keyed by `device_name`; it is modelled as the association list in completion
order.  `net` gives each device its own network behaviour. -/
def sync_all_devices (net : Device → DeviceNet) (now : Nat) (db : DB) :
    List (String × (Nat × String)) × DB :=
  syncDevicesLoop net now db (db.devices.filter (·.is_active))

end ZKTecoManager

namespace crud

/-- Modelled from the spec: the employee-lookup collaborator
`resolve_employee(device_local_id) -> Employee | None` of section 6.  The
source calls `crud.get_employee_by_device_id`, which is defined nowhere in
the repository (the call would raise `AttributeError`); following the spec,
the device-local user id is matched against the company employee id string,
the convention every other lookup in the sync subsystem uses. -/
def get_employee_by_device_id (db : DB) (device_id : String) : Option Employee :=
  db.employees.find? fun e => e.employee_id == device_id

/-- `crud.get_zkteco_device_by_device_id` (crud.py lines 373-375). -/
def get_zkteco_device_by_device_id (db : DB) (device_id : String) : Option Device :=
  db.devices.find? fun d => d.device_id == device_id

end crud

namespace DeviceManagementService

/-- `DeviceManagementService._get_attendance_by_device_record`
(device_management_service.py lines 350-371): the first attendance row of
the same employee and device serial whose `check_in_time` lies within a
5-minute window around the punch timestamp.  Only `check_in_time` is
compared; `check_out_time` is not consulted.  Truncated `Nat` subtraction
clamps the lower bound at the epoch, which real timestamps never reach. -/
def _get_attendance_by_device_record (db : DB) (employee_id : Nat)
    (device_timestamp : Nat) (device_id : String) : Option Attendance :=
  db.attendance.find? fun a =>
    a.employee_id == employee_id && a.device_id == some device_id &&
    decide (device_timestamp - 300 ≤ a.check_in_time) &&
    decide (a.check_in_time ≤ device_timestamp + 300)

/-- Loop body of `DeviceManagementService.sync_device_attendance`
(lines 216-248): resolve the employee, drop the punch when
`_get_attendance_by_device_record` finds a row in the 5-minute window, and
otherwise insert an open row (`check_out_time` absent from the created
payload) with the punch timestamp as check-in.  The raw event list that the
source loop iterates comes from `self.zkteco_service.get_attendance_data`,
a method defined nowhere in the repository, so a run of the source function
raises before this loop; the loop body itself is embedded faithfully and fed
events directly. -/
def sync_device_attendance_record (device : Device) (db : DB) (r : RawRecord) :
    DB × Nat :=
  match crud.get_employee_by_device_id db r.user_id with
  | none => (db, 0)
  | some employee =>
    match _get_attendance_by_device_record db employee.id r.timestamp
        device.device_id with
    | some _ => (db, 0)
    | none =>
      (addAttendanceRow db fun i =>
        ⟨i, employee.id, r.timestamp, none, some device.device_id,
          some device.id, "fingerprint", "present"⟩, 1)

end DeviceManagementService

namespace AttendanceService

/-- `AttendanceValidator.validate_attendance_time` (validators.py lines
12-21): `false` models the raised `AttendanceValidationException` when a
checkout is given that is not after the check-in. -/
def validate_attendance_time (check_in_time : Nat) (check_out_time : Option Nat) :
    Bool :=
  match check_out_time with
  | some t => !decide (check_in_time ≥ t)
  | none => true

/-- `AttendanceValidator.validate_work_hours` (lines 24-35) with the default
24-hour cap; `false` models the raised exception. -/
def validate_work_hours (check_in_time check_out_time : Nat) : Bool :=
  !decide (check_out_time - check_in_time > 24 * 3600)

/-- `AttendanceValidator.validate_attendance_date` (lines 38-44): the
attendance day may not lie after the current day; days are day numbers
`t / 86400`. -/
def validate_attendance_date (attendance_date today : Nat) : Bool :=
  !decide (attendance_date > today)

/-- `AttendanceService.get_attendance_by_date` (attendance_service.py lines
89-102): first attendance row of the employee whose check-in lies inside the
given calendar day; `datetime.max.time()` becomes the last whole second of
the day. -/
def get_attendance_by_date (db : DB) (employee_id : Nat)
    (attendance_date : Nat) : Option Attendance :=
  db.attendance.find? fun a =>
    a.employee_id == employee_id &&
    decide (attendance_date * 86400 ≤ a.check_in_time) &&
    decide (a.check_in_time ≤ attendance_date * 86400 + 86399)

/-- Payload of `models.AttendanceCreate` as used by the sync subsystem. -/
structure AttendanceCreateData where
  employee_id : Nat
  check_in_time : Nat
  check_out_time : Option Nat
  device_id : Option String
  zkteco_device_id : Option Nat
  attendance_type : String
  status : String
deriving DecidableEq

/-- Payload of `models.AttendanceUpdate`; a `none` field is an unset field
(`model_dump(exclude_unset=True)` skips it). -/
structure AttendanceUpdateData where
  check_out_time : Option Nat
  status : Option String
deriving DecidableEq

/-- `AttendanceService.create_attendance` (lines 25-60): employee existence,
time and date validation, the duplicate-day check, then
`crud.create_attendance` appending the row.  `Except` carries the message of
the raised exception; the store is untouched on every error path. -/
def create_attendance (db : DB) (today : Nat) (a : AttendanceCreateData) :
    Except String (DB × Nat) :=
  match db.employees.find? (fun e => e.id == a.employee_id) with
  | none => .error "EmployeeNotFoundException"
  | some _ =>
    if validate_attendance_time a.check_in_time a.check_out_time = false then
      .error "Check-out time must be after check-in time"
    else if validate_attendance_date (a.check_in_time / 86400) today = false then
      .error "Attendance date cannot be in the future"
    else
      match get_attendance_by_date db a.employee_id (a.check_in_time / 86400) with
      | some _ => .error "Attendance record already exists"
      | none =>
        .ok (addAttendanceRow db fun i =>
          ⟨i, a.employee_id, a.check_in_time, a.check_out_time, a.device_id,
            a.zkteco_device_id, a.attendance_type, a.status⟩,
          db.next_attendance_id)

/-- `crud.update_attendance` (crud.py lines 198-209): set every field of the
payload that is set, on the row with the given primary key. -/
def crud_update_attendance (db : DB) (attendance_id : Nat)
    (u : AttendanceUpdateData) : DB :=
  let apply := fun (a : Attendance) =>
    let a := match u.check_out_time with
      | some t => { a with check_out_time := some t }
      | none => a
    match u.status with
    | some s => { a with status := s }
    | none => a
  { db with attendance := updateFirst (fun a => a.id == attendance_id) apply db.attendance }

/-- `AttendanceService.update_attendance` (lines 62-87): look the row up by
id, validate the new checkout against the stored check-in and the 24-hour
work cap when a checkout is supplied, then apply the crud update. -/
def update_attendance (db : DB) (attendance_id : Nat)
    (u : AttendanceUpdateData) : Except String (DB × Nat) :=
  match db.attendance.find? (fun a => a.id == attendance_id) with
  | none => .error "Attendance record not found"
  | some attendance =>
    match u.check_out_time with
    | some t =>
      if validate_attendance_time attendance.check_in_time (some t) = false then
        .error "Check-out time must be after check-in time"
      else if validate_work_hours attendance.check_in_time t = false then
        .error "Work duration exceeds maximum"
      else
        .ok (crud_update_attendance db attendance_id u, attendance_id)
    | none =>
      .ok (crud_update_attendance db attendance_id u, attendance_id)

/-- `AttendanceService.mark_attendance_by_fingerprint` (lines 231-282):
resolve the employee from the device-local id (see
`crud.get_employee_by_device_id`), resolve the device, and for the day of
the punch either close the open record of that day, reject a completed day,
or create a fresh open check-in record.  `today` is the current day number
consulted by the date validator. -/
def mark_attendance_by_fingerprint (db : DB) (today : Nat) (device_id : String)
    (employee_device_id : String) (timestamp : Nat) :
    Except String (DB × Nat) :=
  match crud.get_employee_by_device_id db employee_device_id with
  | none => .error "EmployeeNotFoundException"
  | some employee =>
    match crud.get_zkteco_device_by_device_id db device_id with
    | none => .error "Device not found"
    | some device =>
      match get_attendance_by_date db employee.id (timestamp / 86400) with
      | some existing =>
        if existing.check_out_time.isNone then
          update_attendance db existing.id ⟨some timestamp, none⟩
        else
          .error "already has complete attendance"
      | none =>
        create_attendance db today
          ⟨employee.id, timestamp, none, some device_id, some device.id,
            "fingerprint", "present"⟩

end AttendanceService

/-- An operation of the attendance store considered by the invariant claims:
a device sync run or one fingerprint marking. -/
inductive StoreOp where
  | syncRun (net : DeviceNet) (now : Nat) (device : Device)
  | fingerprintMark (today : Nat) (device_id employee_device_id : String)
      (timestamp : Nat)
deriving DecidableEq

/-- Effect of one operation on the store; a raised exception in the marking
path leaves the store untouched. -/
def applyOp (db : DB) : StoreOp → DB
  | .syncRun net now device =>
    (ZKTecoService.sync_attendance_from_device net now device db []).db
  | .fingerprintMark today d e t =>
    match AttendanceService.mark_attendance_by_fingerprint db today d e t with
    | .ok s => s.1
    | .error _ => db

/-- A sequence of sync runs and fingerprint markings. -/
def runOps (db : DB) (ops : List StoreOp) : DB := ops.foldl applyOp db

/-- Two attendance rows are a double-open clash when both lack a checkout
and belong to the same employee and the same calendar day. -/
def openClash (a b : Attendance) : Prop :=
  a.check_out_time = none ∧ b.check_out_time = none ∧
  a.employee_id = b.employee_id ∧
  a.check_in_time / 86400 = b.check_in_time / 86400

instance (a b : Attendance) : Decidable (openClash a b) := by
  unfold openClash; infer_instance

/-- The no-double-open invariant: no two rows of the store are a clash. -/
def noDoubleOpen (l : List Attendance) : Prop :=
  l.Pairwise fun a b => ¬ openClash a b

/-- No open (checkout-null) row of the store belongs to the given device. -/
def noOpenForDevice (device : Device) (db : DB) : Prop :=
  ∀ a ∈ db.attendance, a.zkteco_device_id = some device.id →
    a.check_out_time ≠ none

/-- The sync-log rows of one device. -/
def logsForDevice (db : DB) (i : Nat) : List DeviceSyncLog :=
  db.sync_logs.filter fun l => l.device_id == i

/-- The attendance rows of one device. -/
def attendanceForDevice (db : DB) (i : Nat) : List Attendance :=
  db.attendance.filter fun a => a.zkteco_device_id == some i

/-- The registry rows of one device. -/
def deviceRowsFor (db : DB) (i : Nat) : List Device :=
  db.devices.filter fun d => d.id == i

/-- Sample employee whose company employee id matches device user id 42. -/
def emp42 : Employee := ⟨42, "42"⟩

/-- Sample employee whose company employee id matches device user id 7. -/
def emp7 : Employee := ⟨7, "7"⟩

/-- Sample registered terminal that has synced before. -/
def devA : Device :=
  ⟨1, "DEV1", "Main Door", "192.168.1.201", 4370, "online", some 1, true⟩

/-- Sample never-synced terminal (`last_sync` null). -/
def devFresh : Device :=
  ⟨1, "DEV1", "Main Door", "192.168.1.201", 4370, "offline", none, true⟩

/-- Network oracle of an unreachable terminal: the TCP probe fails. -/
def netUnreachable : DeviceNet := ⟨false, none, none⟩

/-- Store holding only employee 42 and the fresh terminal. -/
def dbFresh : DB := ⟨[emp42], [devFresh], [], [], 0⟩

/-- The raw batch of the specification scenario: two punches of employee 42
at 09:00:00 and 17:30:00 of day zero, the device reporting the first as a
check-in and the second as a check-out. -/
def scenarioBatch : List RawRecord := [⟨"42", 32400, 1⟩, ⟨"42", 63000, 0⟩]

/-- Oracle of a reachable terminal delivering the scenario batch. -/
def netScenario : DeviceNet := ⟨true, some true, some scenarioBatch⟩

/-- Store holding employee 7 and the registered terminal `devA`. -/
def dbA : DB := ⟨[emp7], [devA], [], [], 0⟩

/-- Store with one open attendance row of employee 7 for day zero on `devA`
(check-in 09:00:00, no checkout). -/
def dbOpen : DB :=
  ⟨[emp7], [devA],
    [⟨0, 7, 32400, none, some "DEV1", some 1, "fingerprint", "present"⟩],
    [], 1⟩

/-- Raw batch holding a single check-out punch of employee 7 at 17:30:00. -/
def batchCheckout : List RawRecord := [⟨"7", 63000, 0⟩]

/-- Store with one closed attendance row of employee 7 for day zero on
`devA` (check-in and checkout 09:00:00). -/
def dbClosed : DB :=
  ⟨[emp7], [devA],
    [⟨0, 7, 32400, some 32400, some "DEV1", some 1, "fingerprint", "present"⟩],
    [], 1⟩

/-- Oracle of a reachable terminal reporting one check-out punch of employee
7 at 09:02:00, 120 seconds after the check-in of the stored row of
`dbClosed`. -/
def netNearPunch : DeviceNet := ⟨true, some true, some [⟨"7", 32520, 0⟩]⟩

namespace ZKTecoService

theorem processRecord_sync_logs (device : Device) (db : DB) (r : RawRecord) :
    (processRecord device db r).1.sync_logs = db.sync_logs := by
  unfold processRecord
  repeat' (first | rfl | split | dsimp only)

theorem processRecord_employees (device : Device) (db : DB) (r : RawRecord) :
    (processRecord device db r).1.employees = db.employees := by
  unfold processRecord
  repeat' (first | rfl | split | dsimp only)

theorem processRecord_devices (device : Device) (db : DB) (r : RawRecord) :
    (processRecord device db r).1.devices = db.devices := by
  unfold processRecord
  repeat' (first | rfl | split | dsimp only)

theorem processAll_sync_logs (device : Device) :
    ∀ (data : List RawRecord) (db : DB),
      (processAll device db data).1.sync_logs = db.sync_logs := by
  intro data
  induction data with
  | nil => intro db; rfl
  | cons r rest ih =>
    intro db
    simp only [processAll]
    rw [ih, processRecord_sync_logs]

theorem processAll_devices (device : Device) :
    ∀ (data : List RawRecord) (db : DB),
      (processAll device db data).1.devices = db.devices := by
  intro data
  induction data with
  | nil => intro db; rfl
  | cons r rest ih =>
    intro db
    simp only [processAll]
    rw [ih, processRecord_devices]

theorem connect_device_sync_logs (net : DeviceNet) (now : Nat) (device : Device)
    (db : DB) (c : List String) :
    (connect_device net now device db c).db.sync_logs = db.sync_logs := by
  unfold connect_device
  repeat' (first | rfl | split | dsimp only)

theorem connect_device_attendance (net : DeviceNet) (now : Nat) (device : Device)
    (db : DB) (c : List String) :
    (connect_device net now device db c).db.attendance = db.attendance := by
  unfold connect_device
  repeat' (first | rfl | split | dsimp only)

theorem pullAttendance_sync_logs (net : DeviceNet) (device : Device) (db : DB)
    (c : List String) (sd ed : Option Nat) :
    (pullAttendance net device db c sd ed).db.sync_logs = db.sync_logs := by
  unfold pullAttendance
  repeat' (first | rfl | split | dsimp only)

theorem pullAttendance_attendance (net : DeviceNet) (device : Device) (db : DB)
    (c : List String) (sd ed : Option Nat) :
    (pullAttendance net device db c sd ed).db.attendance = db.attendance := by
  unfold pullAttendance
  repeat' (first | rfl | split | dsimp only)

theorem get_device_attendance_sync_logs (net : DeviceNet) (now : Nat)
    (device : Device) (db : DB) (c : List String) (sd ed : Option Nat) :
    (get_device_attendance net now device db c sd ed).db.sync_logs = db.sync_logs := by
  unfold get_device_attendance
  split
  · exact pullAttendance_sync_logs ..
  · dsimp only
    split
    · rw [pullAttendance_sync_logs, connect_device_sync_logs]
    · exact connect_device_sync_logs ..

theorem get_device_attendance_attendance (net : DeviceNet) (now : Nat)
    (device : Device) (db : DB) (c : List String) (sd ed : Option Nat) :
    (get_device_attendance net now device db c sd ed).db.attendance = db.attendance := by
  unfold get_device_attendance
  split
  · exact pullAttendance_attendance ..
  · dsimp only
    split
    · rw [pullAttendance_attendance, connect_device_attendance]
    · exact connect_device_attendance ..

theorem filterRecords_all_since (data : List RawRecord) (s : Nat) (e : Option Nat) :
    ((filterRecords data (some s) e).all fun r => decide (s ≤ r.timestamp)) = true := by
  simp only [filterRecords, List.all_eq_true, List.mem_filter]
  rintro r ⟨-, h⟩
  simp only [Bool.and_eq_true, decide_eq_true_eq] at h
  exact decide_eq_true h.1.2

end ZKTecoService


open ZKTecoService

/-- C9: for every sync run, the since-cursor used to pull events from the
device equals the recorded `last_sync` timestamp when one exists and
otherwise exactly 24 hours before the current time, and every record the
pull hands to the run carries a timestamp at or after that cursor
(`sync_attendance_from_device` passes `lastSyncCursor` as the `start_date`
of `get_device_attendance`). -/
theorem sync_since_cursor (device : Device) (now : Nat) :
    (∀ t, device.last_sync = some t → lastSyncCursor device now = t) ∧
    (device.last_sync = none → lastSyncCursor device now = now - 24 * 3600) ∧
    ∀ (net : DeviceNet) (db : DB) (c : List String),
      ((get_device_attendance net now device db c
          (some (lastSyncCursor device now)) none).data.all
        fun r => decide (lastSyncCursor device now ≤ r.timestamp)) = true := by
  refine ⟨fun t h => ?_, fun h => ?_, ?_⟩
  · unfold lastSyncCursor
    rw [h, Option.getD_some]
  · unfold lastSyncCursor
    rw [h, Option.getD_none]
  · intro net db c
    have hpull : ∀ (dev : Device) (db2 : DB) (c2 : List String),
        ((pullAttendance net dev db2 c2
            (some (lastSyncCursor device now)) none).data.all
          fun r => decide (lastSyncCursor device now ≤ r.timestamp)) = true := by
      intro dev db2 c2
      unfold pullAttendance
      split
      · rfl
      · split
        · rfl
        · dsimp only
          exact filterRecords_all_since ..
    unfold get_device_attendance
    split
    · exact hpull ..
    · dsimp only
      split
      · exact hpull ..
      · rfl

/-- C9 witness: the cursor equations evaluated on the synced terminal
`devA` (last sync at second 1) and the never-synced terminal `devFresh`. -/
theorem sync_since_cursor_witness :
    devA.last_sync = some 1 ∧ lastSyncCursor devA 90000 = 1 ∧
    devFresh.last_sync = none ∧
    lastSyncCursor devFresh 90000 = 90000 - 24 * 3600 :=
  ⟨rfl, (sync_since_cursor devA 90000).1 1 rfl, rfl,
    (sync_since_cursor devFresh 90000).2.1 rfl⟩

/-- C10: a successful `connect_device` returns true, sets the device row to
`online` with `last_sync = now`, commits it, and thereby makes the
since-cursor of any later sync run equal to the connection time; a pull that
triggers such a connection but yields no records still leaves
`last_sync = now` on the device row. -/
theorem connect_success_sets_online_and_cursor (att : Option (List RawRecord))
    (now now2 : Nat) (device : Device) (db : DB) (c : List String)
    (sd ed : Option Nat) :
    (connect_device ⟨true, some true, att⟩ now device db c).ok = true ∧
    (connect_device ⟨true, some true, att⟩ now device db c).device.device_status
      = "online" ∧
    (connect_device ⟨true, some true, att⟩ now device db c).device.last_sync
      = some now ∧
    lastSyncCursor (connect_device ⟨true, some true, att⟩ now device db c).device
      now2 = now ∧
    (connect_device ⟨true, some true, att⟩ now device db c).db
      = commitDevice db (connect_device ⟨true, some true, att⟩ now device db c).device ∧
    (get_device_attendance ⟨true, some true, some []⟩ now device db [] sd ed).data
      = [] ∧
    (get_device_attendance ⟨true, some true, some []⟩ now device db [] sd ed).device.last_sync
      = some now :=
  ⟨rfl, rfl, rfl, rfl, rfl, rfl, rfl⟩

/-- C7 counterexample: with the TCP probe failing, `connect_device` itself
rewrites the persisted health of a device that was `online` to `offline`,
so a failed connection attempt does not leave `device_status` unchanged. -/
theorem connect_failure_mutates_health_counterexample :
    (connect_device netUnreachable 0 devA dbA []).device.device_status
      ≠ devA.device_status ∧
    (connect_device netUnreachable 0 devA dbA []).db.devices ≠ dbA.devices := by
  decide

/-- C7 amended: when a connection attempt fails, `connect_device` returns
false and itself commits the device health: `offline` for a failed
reachability probe, `error` for a refused vendor handshake, and `error` for
a raised exception; health mutation is not left to the orchestrator. -/
theorem connect_device_failure_health (now : Nat) (device : Device) (db : DB)
    (c : List String) (zc : Option Bool) (att att2 att3 : Option (List RawRecord)) :
    (connect_device ⟨false, zc, att⟩ now device db c).ok = false ∧
    (connect_device ⟨false, zc, att⟩ now device db c).device.device_status
      = "offline" ∧
    (connect_device ⟨false, zc, att⟩ now device db c).db
      = commitDevice db (connect_device ⟨false, zc, att⟩ now device db c).device ∧
    (connect_device ⟨true, some false, att2⟩ now device db c).ok = false ∧
    (connect_device ⟨true, some false, att2⟩ now device db c).device.device_status
      = "error" ∧
    (connect_device ⟨true, none, att3⟩ now device db c).ok = false ∧
    (connect_device ⟨true, none, att3⟩ now device db c).device.device_status
      = "error" :=
  ⟨rfl, rfl, rfl, rfl, rfl, rfl, rfl⟩

/-- C2 counterexample: a sync run against an unreachable device returns
status `success`, not `failed`, and writes no sync-log row at all (the claim
expects status `failed` and exactly one log entry). -/
theorem unreachable_run_status_counterexample :
    (sync_attendance_from_device netUnreachable 1000 devA dbA []).sync_status
      = "success" ∧
    (sync_attendance_from_device netUnreachable 1000 devA dbA []).sync_status
      ≠ "failed" ∧
    (sync_attendance_from_device netUnreachable 1000 devA dbA []).db.sync_logs.length
      = 0 := by
  decide

/-- C2 amended: when the TCP probe fails during a sync run, the device
health is committed as `offline` (by `connect_device`), and the run returns
`records_synced = 0` with status `success`, leaving the sync log and the
attendance store untouched. -/
theorem unreachable_run_behaviour (zc : Option Bool)
    (att : Option (List RawRecord)) (now : Nat) (device : Device) (db : DB) :
    (sync_attendance_from_device ⟨false, zc, att⟩ now device db []).records_synced
      = 0 ∧
    (sync_attendance_from_device ⟨false, zc, att⟩ now device db []).sync_status
      = "success" ∧
    (sync_attendance_from_device ⟨false, zc, att⟩ now device db []).device.device_status
      = "offline" ∧
    (sync_attendance_from_device ⟨false, zc, att⟩ now device db []).db.sync_logs
      = db.sync_logs ∧
    (sync_attendance_from_device ⟨false, zc, att⟩ now device db []).db.attendance
      = db.attendance ∧
    (sync_attendance_from_device ⟨false, zc, att⟩ now device db []).db
      = commitDevice db
          (sync_attendance_from_device ⟨false, zc, att⟩ now device db []).device :=
  ⟨rfl, rfl, rfl, rfl, rfl, rfl⟩

/-- C1 counterexample: an invocation of the sync run against an unreachable
device completes (returning `(0, "success")`) yet appends no `DeviceSyncLog`
row, so not every invocation yields exactly one log entry. -/
theorem sync_run_without_log_counterexample :
    dbA.sync_logs = [] ∧
    (sync_attendance_from_device netUnreachable 1000 devA dbA []).db.sync_logs
      = [] := by
  decide

/-- C1 amended: a sync run appends exactly one `DeviceSyncLog` row precisely
when its device pull yields at least one record; a run whose pull yields no
records — including every failed connection — returns at line 163 without
writing any log entry. -/
theorem sync_log_entry_iff_nonempty_pull (net : DeviceNet) (now : Nat)
    (device : Device) (db : DB) (c : List String) :
    (sync_attendance_from_device net now device db c).db.sync_logs.length =
      db.sync_logs.length +
        (if (get_device_attendance net now device db c
              (some (lastSyncCursor device now)) none).data.isEmpty
         then 0 else 1) := by
  unfold sync_attendance_from_device
  dsimp only
  split
  case isTrue h =>
    rw [get_device_attendance_sync_logs]
    simp [h]
  case isFalse h =>
    simp [commitDevice, processAll_sync_logs, get_device_attendance_sync_logs, h]

/-- C3: evaluation of the sync run on the specification scenario (never
synced device, 24h lookback, punches of employee 42 at 09:00:00 and
17:30:00, the device reporting them as check-in and check-out).  The run
reports two records synced with status `success`, yet the store ends up
with a single row whose check-in and checkout both equal the 17:30:00
punch: the check-in punch builds an `AttendanceCreate` at lines 198-205
that is never added to the session, so no record with check-in 09:00:00
exists, contradicting the claimed single record with check_in 09:00 and
check_out 17:30. -/
theorem checkin_punch_never_persisted_scenario :
    (sync_attendance_from_device netScenario 63100 devFresh dbFresh []).records_synced
      = 2 ∧
    (sync_attendance_from_device netScenario 63100 devFresh dbFresh []).sync_status
      = "success" ∧
    (sync_attendance_from_device netScenario 63100 devFresh dbFresh []).db.attendance
      = [⟨0, 42, 63000, some 63000, some "DEV1", some 1, "fingerprint", "present"⟩] ∧
    ((sync_attendance_from_device netScenario 63100 devFresh dbFresh []).db.attendance.all
      fun a => decide (a.check_in_time ≠ 32400)) = true := by
  decide

/-- C5 counterexample: through the live sync path, a check-out punch of
employee 7 at 09:02:00 — 120 seconds, well within 5 minutes, after the
existing check-in 09:00:00 of the same employee and device — is turned into
a brand-new attendance record: the dedup test at lines 186-191 demands
exact equality of `check_in_time` with the punch timestamp, not a 5-minute
window. -/
theorem dedup_window_counterexample :
    dbClosed.attendance.length = 1 ∧
    (sync_attendance_from_device netNearPunch 40000 devA dbClosed []).db.attendance.length
      = 2 ∧
    (sync_attendance_from_device netNearPunch 40000 devA dbClosed []).db.attendance
      = dbClosed.attendance ++
        [⟨1, 7, 32520, some 32520, some "DEV1", some 1, "fingerprint", "present"⟩] ∧
    (32520 - 32400 ≤ 300) := by
  decide

/-- C5 amended: the 5-minute tolerance exists only in the device-management
record processing — `_get_attendance_by_device_record` suppresses a punch
within 5 minutes of an existing check-in of the same employee and device
(the checkout timestamp is never consulted); the live sync path
`processRecord` suppresses a punch only when its timestamp exactly equals
an existing check-in of the same employee and device. -/
theorem dedup_window_checkin_only :
    (∀ (device : Device) (db : DB) (r : RawRecord) (e : Employee) (a : Attendance),
      crud.get_employee_by_device_id db r.user_id = some e →
      a ∈ db.attendance → a.employee_id = e.id →
      a.device_id = some device.device_id →
      r.timestamp - 300 ≤ a.check_in_time → a.check_in_time ≤ r.timestamp + 300 →
      DeviceManagementService.sync_device_attendance_record device db r = (db, 0)) ∧
    (∀ (device : Device) (db : DB) (r : RawRecord) (e : Employee) (a : Attendance),
      ¬(r.user_id = "" ∨ r.timestamp = 0) →
      db.employees.find? (fun x => x.employee_id == r.user_id) = some e →
      a ∈ db.attendance → a.employee_id = e.id →
      a.check_in_time = r.timestamp → a.zkteco_device_id = some device.id →
      ZKTecoService.processRecord device db r = (db, 0)) := by
  constructor
  · intro device db r e a he ha hemp hdev h1 h2
    have hfind : (DeviceManagementService._get_attendance_by_device_record db e.id
        r.timestamp device.device_id).isSome := by
      unfold DeviceManagementService._get_attendance_by_device_record
      rw [List.find?_isSome]
      exact ⟨a, ha, by simp [hemp, hdev, h1, h2]⟩
    unfold DeviceManagementService.sync_device_attendance_record
    split
    · rename_i hne
      rw [he] at hne
    · rename_i e2 he2
      rw [he] at he2
      injection he2 with he2e
      subst he2e
      split
      · rfl
      · rename_i hnone
        rw [hnone] at hfind
        cases hfind
  · intro device db r e a hv hfe ha hemp hci hdev
    have hfind : (db.attendance.find? (fun x =>
        x.employee_id == e.id && x.check_in_time == r.timestamp &&
        x.zkteco_device_id == some device.id)).isSome := by
      rw [List.find?_isSome]
      exact ⟨a, ha, by simp [hemp, hci, hdev]⟩
    unfold ZKTecoService.processRecord
    split
    · rename_i hcontra
      exact absurd hcontra hv
    · split
      · rename_i hne
        rw [hfe] at hne
      · rename_i e2 he2
        rw [hfe] at he2
        injection he2 with he2e
        subst he2e
        split
        · rfl
        · rename_i hnone
          rw [hnone] at hfind
          cases hfind

/-- C5 witness: the window dedup of the device-management path drops a
punch 120 seconds after a stored check-in, and the live sync path drops a
punch exactly matching a stored check-in. -/
theorem dedup_window_checkin_only_witness :
    DeviceManagementService.sync_device_attendance_record devA dbClosed
      ⟨"7", 32520, 0⟩ = (dbClosed, 0) ∧
    ZKTecoService.processRecord devA
      ⟨[emp7], [devA],
        [⟨0, 7, 32520, some 32520, some "DEV1", some 1, "fingerprint", "present"⟩],
        [], 1⟩
      ⟨"7", 32520, 0⟩ =
      (⟨[emp7], [devA],
        [⟨0, 7, 32520, some 32520, some "DEV1", some 1, "fingerprint", "present"⟩],
        [], 1⟩, 0) :=
  ⟨dedup_window_checkin_only.1 devA dbClosed ⟨"7", 32520, 0⟩ emp7
      ⟨0, 7, 32400, some 32400, some "DEV1", some 1, "fingerprint", "present"⟩
      (by decide) (by decide) (by decide) (by decide) (by decide) (by decide),
    dedup_window_checkin_only.2 devA
      ⟨[emp7], [devA],
        [⟨0, 7, 32520, some 32520, some "DEV1", some 1, "fingerprint", "present"⟩],
        [], 1⟩
      ⟨"7", 32520, 0⟩ emp7
      ⟨0, 7, 32520, some 32520, some "DEV1", some 1, "fingerprint", "present"⟩
      (by decide) (by decide) (by decide) (by decide) (by decide) (by decide)⟩

namespace ZKTecoService

theorem processAll_employees (device : Device) :
    ∀ (data : List RawRecord) (db : DB),
      (processAll device db data).1.employees = db.employees := by
  intro data
  induction data with
  | nil => intro db; rfl
  | cons r rest ih =>
    intro db
    simp only [processAll]
    rw [ih, processRecord_employees]

theorem processRecord_attendance_noOpen (device : Device) (db : DB)
    (r : RawRecord) (h : noOpenForDevice device db) :
    (processRecord device db r).1.attendance = db.attendance ∨
    ∃ e : Employee,
      db.employees.find? (fun x => x.employee_id == r.user_id) = some e ∧
      (processRecord device db r).1.attendance = db.attendance ++
        [⟨db.next_attendance_id, e.id, r.timestamp, some r.timestamp,
          some device.device_id, some device.id, "fingerprint", "present"⟩] := by
  unfold processRecord
  split
  · exact Or.inl rfl
  · split
    · exact Or.inl rfl
    · rename_i e hfe
      split
      · exact Or.inl rfl
      · rename_i hdup
        by_cases hst : r.status = 1
        · rw [if_pos hst]
          exact Or.inl rfl
        · rw [if_neg hst]
          split
          · rename_i x hx
            exfalso
            have hmem := List.mem_of_find?_eq_some hx
            have hpred := List.find?_some hx
            simp only [openCheckinPred, Bool.and_eq_true, beq_iff_eq,
              decide_eq_true_eq, Option.isNone_iff_eq_none] at hpred
            exact h x hmem hpred.2 hpred.1.2
          · exact Or.inr ⟨e, hfe, rfl⟩

theorem noOpenForDevice_processRecord (device : Device) (db : DB)
    (r : RawRecord) (h : noOpenForDevice device db) :
    noOpenForDevice device (processRecord device db r).1 := by
  rcases processRecord_attendance_noOpen device db r h with heq | ⟨e, -, heq⟩
  · intro a ha
    rw [heq] at ha
    exact h a ha
  · intro a ha
    rw [heq] at ha
    rcases List.mem_append.mp ha with ha | ha
    · exact h a ha
    · rcases List.mem_singleton.mp ha with rfl
      intro _ hcontra
      cases hcontra

theorem processRecord_mem_mono (device : Device) (db : DB) (r : RawRecord)
    (h : noOpenForDevice device db) (a : Attendance) (ha : a ∈ db.attendance) :
    a ∈ (processRecord device db r).1.attendance := by
  rcases processRecord_attendance_noOpen device db r h with heq | ⟨e, -, heq⟩
  · rw [heq]; exact ha
  · rw [heq]; exact List.mem_append_left _ ha

theorem noOpenForDevice_processAll (device : Device) :
    ∀ (data : List RawRecord) (db : DB), noOpenForDevice device db →
      noOpenForDevice device (processAll device db data).1 := by
  intro data
  induction data with
  | nil => intro db h; exact h
  | cons r rest ih =>
    intro db h
    simp only [processAll]
    exact ih _ (noOpenForDevice_processRecord device db r h)

theorem processAll_mem_mono (device : Device) :
    ∀ (data : List RawRecord) (db : DB), noOpenForDevice device db →
      ∀ a ∈ db.attendance, a ∈ (processAll device db data).1.attendance := by
  intro data
  induction data with
  | nil => intro db _ a ha; exact ha
  | cons r rest ih =>
    intro db h a ha
    simp only [processAll]
    exact ih _ (noOpenForDevice_processRecord device db r h)
      a (processRecord_mem_mono device db r h a ha)

theorem processRecord_creates_dup (device : Device) (db : DB) (r : RawRecord)
    (h : noOpenForDevice device db) (e : Employee)
    (hv : ¬(r.user_id = "" ∨ r.timestamp = 0))
    (hfe : db.employees.find? (fun x => x.employee_id == r.user_id) = some e)
    (hst : r.status ≠ 1) :
    ∃ a ∈ (processRecord device db r).1.attendance,
      (a.employee_id == e.id && a.check_in_time == r.timestamp &&
        a.zkteco_device_id == some device.id) = true := by
  unfold processRecord
  split
  · exact absurd (by assumption) hv
  · split
    · rename_i hne
      rw [hfe] at hne
      exact Option.noConfusion hne
    · rename_i e2 he2
      rw [hfe] at he2
      injection he2 with he2e
      subst he2e
      split
      · rename_i x hx
        have hm := List.mem_of_find?_eq_some hx
        have hp := List.find?_some hx
        exact ⟨x, hm, hp⟩
      · rename_i hdup
        split
        · rename_i x hx
          exfalso
          have hmem := List.mem_of_find?_eq_some hx
          have hpred := List.find?_some hx
          simp only [openCheckinPred, Bool.and_eq_true, beq_iff_eq,
            decide_eq_true_eq, Option.isNone_iff_eq_none] at hpred
          exact h x hmem hpred.2 hpred.1.2
        · refine ⟨⟨db.next_attendance_id, e.id, r.timestamp, some r.timestamp,
            some device.device_id, some device.id, "fingerprint", "present"⟩,
            ?_, by simp⟩
          exact List.mem_append_right _ (List.mem_singleton.mpr rfl)

theorem processAll_establishes_dups (device : Device) :
    ∀ (data : List RawRecord) (db : DB), noOpenForDevice device db →
      ∀ r ∈ data, ∀ e : Employee,
        db.employees.find? (fun x => x.employee_id == r.user_id) = some e →
        r.status ≠ 1 → ¬(r.user_id = "" ∨ r.timestamp = 0) →
        ∃ a ∈ (processAll device db data).1.attendance,
          (a.employee_id == e.id && a.check_in_time == r.timestamp &&
            a.zkteco_device_id == some device.id) = true := by
  intro data
  induction data with
  | nil => intro db _ r hr; cases hr
  | cons q rest ih =>
    intro db h r hr e hfe hst hv
    have h2 := noOpenForDevice_processRecord device db q h
    rcases List.mem_cons.mp hr with rfl | hr
    · obtain ⟨a, ha, hpred⟩ := processRecord_creates_dup device db r h e hv hfe hst
      simp only [processAll]
      exact ⟨a, processAll_mem_mono device rest _ h2 a ha, hpred⟩
    · simp only [processAll]
      refine ih _ h2 r hr e ?_ hst hv
      rw [processRecord_employees]
      exact hfe

theorem processRecord_unchanged_of (device : Device) (db : DB) (r : RawRecord)
    (h : noOpenForDevice device db)
    (hdup : ∀ e : Employee,
      db.employees.find? (fun x => x.employee_id == r.user_id) = some e →
      r.status ≠ 1 → ¬(r.user_id = "" ∨ r.timestamp = 0) →
      ∃ a ∈ db.attendance,
        (a.employee_id == e.id && a.check_in_time == r.timestamp &&
          a.zkteco_device_id == some device.id) = true) :
    (processRecord device db r).1 = db := by
  unfold processRecord
  split
  · rfl
  · rename_i hv
    split
    · rfl
    · rename_i e hfe
      split
      · rfl
      · rename_i hnone
        by_cases hst : r.status = 1
        · rw [if_pos hst]
        · rw [if_neg hst]
          exfalso
          obtain ⟨a, ha, hpred⟩ := hdup e hfe hst hv
          have : (db.attendance.find? (fun x =>
              x.employee_id == e.id && x.check_in_time == r.timestamp &&
              x.zkteco_device_id == some device.id)).isSome :=
            List.find?_isSome.mpr ⟨a, ha, hpred⟩
          rw [hnone] at this
          cases this

theorem processAll_fixpoint (device : Device) :
    ∀ (data : List RawRecord) (db : DB),
      (∀ r ∈ data, (processRecord device db r).1 = db) →
      (processAll device db data).1 = db := by
  intro data
  induction data with
  | nil => intro db _; rfl
  | cons r rest ih =>
    intro db hall
    simp only [processAll]
    rw [hall r (List.mem_cons_self r rest)]
    exact ih db fun q hq => hall q (List.mem_cons_of_mem r hq)

end ZKTecoService

/-- C4 amended: the record loop of the sync run is idempotent whenever the
starting store holds no open attendance row of the device being synced:
re-running it over the same raw batch changes nothing, because every
persisted punch leaves a row whose check-in equals the punch timestamp and
the exact-match dedup then skips it.  (When an open row exists, closing it
on the first run and re-creating a fresh row on the second breaks
idempotence, as the counterexample shows.) -/
theorem reconciliation_idempotent_when_no_open (device : Device) (db : DB)
    (data : List RawRecord) (h : noOpenForDevice device db) :
    (processAll device (processAll device db data).1 data).1
      = (processAll device db data).1 := by
  have h1 : noOpenForDevice device (processAll device db data).1 :=
    noOpenForDevice_processAll device data db h
  refine processAll_fixpoint device data _ fun r hr => ?_
  refine processRecord_unchanged_of device _ r h1 fun e hfe hst hv => ?_
  refine processAll_establishes_dups device data db h r hr e ?_ hst hv
  rw [processAll_employees] at hfe
  exact hfe

/-- C4 counterexample: with one open row (check-in 09:00:00, no checkout)
for employee 7 on the device, the batch holding a single check-out punch at
17:30:00 closes the row on the first run but creates a brand-new row on the
second run over the same batch, so the second run is not mutation-free. -/
theorem second_run_mutates_counterexample :
    (ZKTecoService.processAll devA dbOpen batchCheckout).1.attendance.length = 1 ∧
    (ZKTecoService.processAll devA
        (ZKTecoService.processAll devA dbOpen batchCheckout).1
        batchCheckout).1.attendance.length = 2 := by
  decide

/-- C4 witness: idempotence of the record loop evaluated on a store whose
only row is closed and a batch holding one check-out punch. -/
theorem reconciliation_idempotent_no_open_witness :
    noOpenForDevice devA dbClosed ∧
    (ZKTecoService.processAll devA
        (ZKTecoService.processAll devA dbClosed batchCheckout).1
        batchCheckout).1
      = (ZKTecoService.processAll devA dbClosed batchCheckout).1 :=
  ⟨by unfold noOpenForDevice; decide,
    reconciliation_idempotent_when_no_open devA dbClosed batchCheckout
      (by unfold noOpenForDevice; decide)⟩

theorem openClash_left_closed (a b : Attendance) (h : a.check_out_time ≠ none) :
    ¬ openClash a b := fun hc => h hc.1

theorem openClash_right_closed (a b : Attendance) (h : b.check_out_time ≠ none) :
    ¬ openClash a b := fun hc => h hc.2.1

theorem mem_updateFirst {p : α → Bool} {f : α → α} :
    ∀ {l : List α} {y : α}, y ∈ updateFirst p f l → y ∈ l ∨ ∃ z ∈ l, y = f z := by
  intro l
  induction l with
  | nil => intro y hy; cases hy
  | cons x xs ih =>
    intro y hy
    unfold updateFirst at hy
    split at hy
    · rcases List.mem_cons.mp hy with rfl | hy
      · exact Or.inr ⟨x, List.mem_cons_self x xs, rfl⟩
      · exact Or.inl (List.mem_cons_of_mem x hy)
    · rcases List.mem_cons.mp hy with rfl | hy
      · exact Or.inl (List.mem_cons_self y xs)
      · rcases ih hy with hy | ⟨z, hz, rfl⟩
        · exact Or.inl (List.mem_cons_of_mem x hy)
        · exact Or.inr ⟨z, List.mem_cons_of_mem x hz, rfl⟩

theorem pairwise_updateFirst {R : α → α → Prop} {p : α → Bool} {f : α → α}
    (h1 : ∀ a b, R (f a) b) (h2 : ∀ a b, R a (f b)) :
    ∀ {l : List α}, l.Pairwise R → (updateFirst p f l).Pairwise R := by
  intro l
  induction l with
  | nil => intro _; exact List.Pairwise.nil
  | cons x xs ih =>
    intro hp
    rcases List.pairwise_cons.mp hp with ⟨hhead, htail⟩
    unfold updateFirst
    split
    · exact List.pairwise_cons.mpr ⟨fun y _ => h1 x y, htail⟩
    · refine List.pairwise_cons.mpr ⟨fun y hy => ?_, ih htail⟩
      rcases mem_updateFirst hy with hy | ⟨z, hz, rfl⟩
      · exact hhead y hy
      · exact h2 x z

theorem pairwise_append_one {R : α → α → Prop} {l : List α} {x : α}
    (hp : l.Pairwise R) (hx : ∀ b ∈ l, R b x) : (l ++ [x]).Pairwise R := by
  refine List.pairwise_append.mpr ⟨hp, List.pairwise_singleton R x, ?_⟩
  intro a ha b hb
  rcases List.mem_singleton.mp hb with rfl
  exact hx a ha

theorem noDoubleOpen_append_closed {l : List Attendance} {x : Attendance}
    (hp : noDoubleOpen l) (hx : x.check_out_time ≠ none) :
    noDoubleOpen (l ++ [x]) :=
  pairwise_append_one hp fun b _ => openClash_right_closed b x hx

theorem noDoubleOpen_processRecord (device : Device) (db : DB) (r : RawRecord)
    (h : noDoubleOpen db.attendance) :
    noDoubleOpen (ZKTecoService.processRecord device db r).1.attendance := by
  unfold ZKTecoService.processRecord
  split
  · exact h
  · split
    · exact h
    · split
      · exact h
      · by_cases hst : r.status = 1
        · rw [if_pos hst]
          exact h
        · rw [if_neg hst]
          split
          · refine pairwise_updateFirst ?_ ?_ h
            · intro a b
              exact openClash_left_closed _ b (by simp)
            · intro a b
              exact openClash_right_closed a _ (by simp)
          · exact noDoubleOpen_append_closed h (by simp)

theorem noDoubleOpen_processAll (device : Device) :
    ∀ (data : List RawRecord) (db : DB), noDoubleOpen db.attendance →
      noDoubleOpen (ZKTecoService.processAll device db data).1.attendance := by
  intro data
  induction data with
  | nil => intro db h; exact h
  | cons r rest ih =>
    intro db h
    simp only [ZKTecoService.processAll]
    exact ih _ (noDoubleOpen_processRecord device db r h)

theorem noDoubleOpen_sync (net : DeviceNet) (now : Nat) (device : Device)
    (db : DB) (c : List String) (h : noDoubleOpen db.attendance) :
    noDoubleOpen
      (ZKTecoService.sync_attendance_from_device net now device db c).db.attendance := by
  unfold ZKTecoService.sync_attendance_from_device
  dsimp only
  split
  · rw [ZKTecoService.get_device_attendance_attendance]
    exact h
  · dsimp only [commitDevice]
    refine noDoubleOpen_processAll device _ _ ?_
    rw [ZKTecoService.get_device_attendance_attendance]
    exact h

theorem day_window_iff (t d : Nat) :
    t / 86400 = d ↔ d * 86400 ≤ t ∧ t ≤ d * 86400 + 86399 := by
  omega

theorem noDoubleOpen_create_attendance (db : DB) (today : Nat)
    (p : AttendanceService.AttendanceCreateData) (res : DB × Nat)
    (hok : AttendanceService.create_attendance db today p = .ok res)
    (h : noDoubleOpen db.attendance) : noDoubleOpen res.1.attendance := by
  unfold AttendanceService.create_attendance at hok
  split at hok
  · cases hok
  · split at hok
    · cases hok
    · split at hok
      · cases hok
      · split at hok
        · cases hok
        · rename_i hday
          injection hok with hok
          subst hok
          dsimp only [addAttendanceRow]
          by_cases hco : p.check_out_time = none
          · refine pairwise_append_one h ?_
            intro b hb hclash
            have hnone := List.find?_eq_none.mp hday b hb
            rcases hclash with ⟨-, -, hemp, hdayeq⟩
            dsimp only at hemp hdayeq
            have hwin := (day_window_iff b.check_in_time
              (p.check_in_time / 86400)).mp hdayeq
            apply hnone
            simp only [Bool.and_eq_true, beq_iff_eq, decide_eq_true_eq]
            exact ⟨⟨hemp, hwin.1⟩, hwin.2⟩
          · exact noDoubleOpen_append_closed h hco

theorem noDoubleOpen_update_attendance (db : DB) (i : Nat) (t : Nat)
    (res : DB × Nat)
    (hok : AttendanceService.update_attendance db i ⟨some t, none⟩ = .ok res)
    (h : noDoubleOpen db.attendance) : noDoubleOpen res.1.attendance := by
  unfold AttendanceService.update_attendance at hok
  split at hok
  · cases hok
  · rename_i att hatt
    dsimp only at hok
    by_cases hv1 : AttendanceService.validate_attendance_time att.check_in_time
        (some t) = false
    · rw [if_pos hv1] at hok
      cases hok
    · rw [if_neg hv1] at hok
      by_cases hv2 : AttendanceService.validate_work_hours att.check_in_time t
          = false
      · rw [if_pos hv2] at hok
        cases hok
      · rw [if_neg hv2] at hok
        injection hok with hok
        subst hok
        dsimp only [AttendanceService.crud_update_attendance]
        refine pairwise_updateFirst ?_ ?_ h
        · intro a b
          exact openClash_left_closed _ b (by simp)
        · intro a b
          exact openClash_right_closed a _ (by simp)

theorem noDoubleOpen_mark (db : DB) (today : Nat) (d e : String) (t : Nat)
    (res : DB × Nat)
    (hok : AttendanceService.mark_attendance_by_fingerprint db today d e t = .ok res)
    (h : noDoubleOpen db.attendance) : noDoubleOpen res.1.attendance := by
  unfold AttendanceService.mark_attendance_by_fingerprint at hok
  split at hok
  · cases hok
  · split at hok
    · cases hok
    · split at hok
      · split at hok
        · exact noDoubleOpen_update_attendance db _ t res hok h
        · cases hok
      · exact noDoubleOpen_create_attendance db today _ res hok h

theorem noDoubleOpen_applyOp (db : DB) (op : StoreOp)
    (h : noDoubleOpen db.attendance) : noDoubleOpen (applyOp db op).attendance := by
  cases op with
  | syncRun net now device => exact noDoubleOpen_sync net now device db [] h
  | fingerprintMark today d e t =>
    unfold applyOp
    dsimp only
    cases hmark : AttendanceService.mark_attendance_by_fingerprint db today d e t with
    | ok s => exact noDoubleOpen_mark db today d e t s hmark h
    | error msg => exact h

/-- C6: after any sequence of sync runs and fingerprint-marking operations,
the attendance store never holds two checkout-null rows for the same
employee and calendar day: the sync path only appends rows whose checkout is
already set or closes an open row, and the marking path creates an open row
only when no row at all exists for that employee and day, and otherwise
closes or rejects. -/
theorem no_double_open_invariant (ops : List StoreOp) :
    ∀ db : DB, noDoubleOpen db.attendance →
      noDoubleOpen (runOps db ops).attendance := by
  induction ops with
  | nil => intro db h; exact h
  | cons op rest ih =>
    intro db h
    exact ih (applyOp db op) (noDoubleOpen_applyOp db op h)

/-- C6 witness: the invariant evaluated on the empty store after one
fingerprint marking (which opens a record for employee 42) followed by one
sync run of the scenario batch (which closes it). -/
theorem no_double_open_invariant_witness :
    noDoubleOpen dbFresh.attendance ∧
    noDoubleOpen
      (runOps dbFresh
        [.fingerprintMark 0 "DEV1" "42" 32400,
         .syncRun netScenario 63100 devFresh]).attendance :=
  ⟨by unfold noDoubleOpen; decide,
    no_double_open_invariant
      [.fingerprintMark 0 "DEV1" "42" 32400,
       .syncRun netScenario 63100 devFresh]
      dbFresh (by unfold noDoubleOpen; decide)⟩

theorem filter_updateFirst {p q : α → Bool} {f : α → α}
    (h1 : ∀ a, p a = true → q a = false)
    (h2 : ∀ a, p a = true → q (f a) = false) :
    ∀ l : List α, (updateFirst p f l).filter q = l.filter q := by
  intro l
  induction l with
  | nil => rfl
  | cons x xs ih =>
    unfold updateFirst
    by_cases hp : p x = true
    · rw [if_pos hp]
      simp only [List.filter_cons, h1 x hp, h2 x hp, Bool.false_eq_true,
        if_false]
    · rw [if_neg hp]
      simp only [List.filter_cons, ih]

theorem beq_eq_false_of_ne {a b : Nat} (h : a ≠ b) : (a == b) = false := by
  simp [h]

namespace ZKTecoService

theorem connect_device_id (net : DeviceNet) (now : Nat) (device : Device)
    (db : DB) (c : List String) :
    (connect_device net now device db c).device.id = device.id := by
  unfold connect_device
  repeat' (first | rfl | split | dsimp only)

theorem pullAttendance_device_id (net : DeviceNet) (device : Device) (db : DB)
    (c : List String) (sd ed : Option Nat) :
    (pullAttendance net device db c sd ed).device.id = device.id := by
  unfold pullAttendance
  repeat' (first | rfl | split | dsimp only)

theorem get_device_attendance_device_id (net : DeviceNet) (now : Nat)
    (device : Device) (db : DB) (c : List String) (sd ed : Option Nat) :
    (get_device_attendance net now device db c sd ed).device.id = device.id := by
  unfold get_device_attendance
  split
  · exact pullAttendance_device_id ..
  · dsimp only
    split
    · rw [pullAttendance_device_id, connect_device_id]
    · exact connect_device_id ..

end ZKTecoService

theorem deviceRowsFor_commitDevice (db : DB) (d : Device) (bid : Nat)
    (hne : bid ≠ d.id) :
    deviceRowsFor (commitDevice db d) bid = deviceRowsFor db bid := by
  unfold deviceRowsFor commitDevice
  dsimp only
  induction db.devices with
  | nil => rfl
  | cons x xs ih =>
    simp only [List.map_cons, List.filter_cons]
    by_cases hx : x.id = d.id
    · rw [if_pos hx, beq_eq_false_of_ne (fun hc => hne hc.symm),
        beq_eq_false_of_ne (fun hc => hne (hx ▸ hc.symm))]
      simpa using ih
    · rw [if_neg hx]
      by_cases hq : (x.id == bid) = true
      · simp only [hq, if_true]
        rw [List.cons_inj_right]
        simpa using ih
      · simp only [Bool.not_eq_true] at hq
        simp only [hq, Bool.false_eq_true, if_false]
        simpa using ih

theorem deviceRowsFor_connect (net : DeviceNet) (now : Nat) (device : Device)
    (db : DB) (c : List String) (bid : Nat) (hne : bid ≠ device.id) :
    deviceRowsFor (ZKTecoService.connect_device net now device db c).db bid
      = deviceRowsFor db bid := by
  unfold ZKTecoService.connect_device
  repeat' (first | exact deviceRowsFor_commitDevice db _ bid hne | split | dsimp only)

theorem deviceRowsFor_pullAttendance (net : DeviceNet) (device : Device)
    (db : DB) (c : List String) (sd ed : Option Nat) (bid : Nat)
    (hne : bid ≠ device.id) :
    deviceRowsFor (ZKTecoService.pullAttendance net device db c sd ed).db bid
      = deviceRowsFor db bid := by
  unfold ZKTecoService.pullAttendance
  repeat' (first | rfl | exact deviceRowsFor_commitDevice db _ bid hne | split | dsimp only)

theorem deviceRowsFor_get_device_attendance (net : DeviceNet) (now : Nat)
    (device : Device) (db : DB) (c : List String) (sd ed : Option Nat)
    (bid : Nat) (hne : bid ≠ device.id) :
    deviceRowsFor (ZKTecoService.get_device_attendance net now device db c sd ed).db bid
      = deviceRowsFor db bid := by
  unfold ZKTecoService.get_device_attendance
  split
  · exact deviceRowsFor_pullAttendance net device db c sd ed bid hne
  · dsimp only
    split
    · rw [deviceRowsFor_pullAttendance _ _ _ _ _ _ bid
        (by rw [ZKTecoService.connect_device_id]; exact hne),
        deviceRowsFor_connect net now device db c bid hne]
    · exact deviceRowsFor_connect net now device db c bid hne

theorem attendanceForDevice_processRecord (device : Device) (db : DB)
    (r : RawRecord) (bid : Nat) (hne : bid ≠ device.id) :
    attendanceForDevice (ZKTecoService.processRecord device db r).1 bid
      = attendanceForDevice db bid := by
  have hq : ∀ a : Attendance, a.zkteco_device_id = some device.id →
      (a.zkteco_device_id == some bid) = false := by
    intro a ha
    simp [ha]
    exact fun hc => hne hc.symm
  unfold ZKTecoService.processRecord attendanceForDevice
  split
  · rfl
  · split
    · rfl
    · split
      · rfl
      · by_cases hst : r.status = 1
        · rw [if_pos hst]
        · rw [if_neg hst]
          split
          · dsimp only
            refine filter_updateFirst ?_ ?_ db.attendance
            · intro a ha
              refine hq a ?_
              simp only [ZKTecoService.openCheckinPred, Bool.and_eq_true,
                beq_iff_eq] at ha
              exact ha.2
            · intro a ha
              refine hq _ ?_
              simp only [ZKTecoService.openCheckinPred, Bool.and_eq_true,
                beq_iff_eq] at ha
              exact ha.2
          · dsimp only [addAttendanceRow]
            rw [List.filter_append]
            simp
            exact fun hc => hne hc.symm

theorem attendanceForDevice_processAll (device : Device) (bid : Nat)
    (hne : bid ≠ device.id) :
    ∀ (data : List RawRecord) (db : DB),
      attendanceForDevice (ZKTecoService.processAll device db data).1 bid
        = attendanceForDevice db bid := by
  intro data
  induction data with
  | nil => intro db; rfl
  | cons r rest ih =>
    intro db
    simp only [ZKTecoService.processAll]
    rw [ih, attendanceForDevice_processRecord device db r bid hne]

theorem syncDevicesLoop_names (net : Device → DeviceNet) (now : Nat) :
    ∀ (l : List Device) (db : DB),
      (ZKTecoManager.syncDevicesLoop net now db l).1.map Prod.fst
        = l.map (fun d => d.device_name) := by
  intro l
  induction l with
  | nil => intro db; rfl
  | cons device rest ih =>
    intro db
    simp only [ZKTecoManager.syncDevicesLoop, List.map_cons]
    rw [List.cons_inj_right]
    exact ih _

/-- C8: a sync run for one device — whatever its outcome, every failure mode
included — never mutates another device registry row, another device sync
logs, or another device attendance rows, and `sync_all_devices` always
executes one run per active device (the per-run exception handler returns
normally, so no outcome of one device prevents the runs of the others). -/
theorem failed_run_isolation (net : DeviceNet) (now : Nat) (device : Device)
    (db : DB) (bid : Nat) (hne : bid ≠ device.id) :
    logsForDevice
        (ZKTecoService.sync_attendance_from_device net now device db []).db bid
      = logsForDevice db bid ∧
    attendanceForDevice
        (ZKTecoService.sync_attendance_from_device net now device db []).db bid
      = attendanceForDevice db bid ∧
    deviceRowsFor
        (ZKTecoService.sync_attendance_from_device net now device db []).db bid
      = deviceRowsFor db bid ∧
    ∀ (netf : Device → DeviceNet) (now2 : Nat) (db2 : DB),
      (ZKTecoManager.sync_all_devices netf now2 db2).1.map Prod.fst
        = (db2.devices.filter (fun d => d.is_active)).map
            (fun d => d.device_name) := by
  refine ⟨?_, ?_, ?_, ?_⟩
  · unfold ZKTecoService.sync_attendance_from_device
    dsimp only
    split
    · unfold logsForDevice
      rw [ZKTecoService.get_device_attendance_sync_logs]
    · unfold logsForDevice
      dsimp only [commitDevice]
      rw [List.filter_append, ZKTecoService.processAll_sync_logs,
        ZKTecoService.get_device_attendance_sync_logs]
      simp [beq_eq_false_of_ne (fun hc : device.id = bid => hne hc.symm)]
  · unfold ZKTecoService.sync_attendance_from_device
    dsimp only
    split
    · unfold attendanceForDevice
      rw [ZKTecoService.get_device_attendance_attendance]
    · show attendanceForDevice
        (ZKTecoService.processAll device
          (ZKTecoService.get_device_attendance net now device db []
            (some (ZKTecoService.lastSyncCursor device now)) none).db
          (ZKTecoService.get_device_attendance net now device db []
            (some (ZKTecoService.lastSyncCursor device now)) none).data).1 bid
        = attendanceForDevice db bid
      rw [attendanceForDevice_processAll device bid hne]
      unfold attendanceForDevice
      rw [ZKTecoService.get_device_attendance_attendance]
  · unfold ZKTecoService.sync_attendance_from_device
    dsimp only
    split
    · exact deviceRowsFor_get_device_attendance net now device db []
        (some (ZKTecoService.lastSyncCursor device now)) none bid hne
    · have hpa : ∀ (data : List RawRecord) (x : DB),
          deviceRowsFor (ZKTecoService.processAll device x data).1 bid
            = deviceRowsFor x bid := by
        intro data
        induction data with
        | nil => intro x; rfl
        | cons r rest ih =>
          intro x
          simp only [ZKTecoService.processAll]
          rw [ih]
          unfold deviceRowsFor
          rw [ZKTecoService.processRecord_devices]
      show deviceRowsFor
        (commitDevice
          (ZKTecoService.processAll device
            (ZKTecoService.get_device_attendance net now device db []
              (some (ZKTecoService.lastSyncCursor device now)) none).db
            (ZKTecoService.get_device_attendance net now device db []
              (some (ZKTecoService.lastSyncCursor device now)) none).data).1
          { (ZKTecoService.get_device_attendance net now device db []
              (some (ZKTecoService.lastSyncCursor device now)) none).device with
              last_sync := some now
              device_status := "online" }) bid
        = deviceRowsFor db bid
      rw [deviceRowsFor_commitDevice _ _ bid
        (by dsimp only
            rw [ZKTecoService.get_device_attendance_device_id]
            exact hne), hpa]
      exact deviceRowsFor_get_device_attendance net now device db []
        (some (ZKTecoService.lastSyncCursor device now)) none bid hne
  · intro netf now2 db2
    exact syncDevicesLoop_names netf now2 _ db2

/-- C8 witness: the frame equalities evaluated for the failing device `devA`
(id 1) against the foreign id 2, plus the run-per-active-device equation on
the concrete store. -/
theorem failed_run_isolation_witness :
    logsForDevice
        (ZKTecoService.sync_attendance_from_device netUnreachable 5 devA dbA []).db 2
      = logsForDevice dbA 2 ∧
    attendanceForDevice
        (ZKTecoService.sync_attendance_from_device netUnreachable 5 devA dbA []).db 2
      = attendanceForDevice dbA 2 ∧
    deviceRowsFor
        (ZKTecoService.sync_attendance_from_device netUnreachable 5 devA dbA []).db 2
      = deviceRowsFor dbA 2 ∧
    (ZKTecoManager.sync_all_devices (fun _ => netUnreachable) 5 dbA).1.map Prod.fst
      = (dbA.devices.filter (fun d => d.is_active)).map (fun d => d.device_name) :=
  ⟨(failed_run_isolation netUnreachable 5 devA dbA 2 (by decide)).1,
    (failed_run_isolation netUnreachable 5 devA dbA 2 (by decide)).2.1,
    (failed_run_isolation netUnreachable 5 devA dbA 2 (by decide)).2.2.1,
    (failed_run_isolation netUnreachable 5 devA dbA 2 (by decide)).2.2.2
      (fun _ => netUnreachable) 5 dbA⟩
